import Mathlib

/-!
Verification development for the repository freebsd-nfs-lock-leak.

The core program is src/nfs-lockfile-counter.c: a libkvm-based scanner
that resolves two kernel symbols, reads the nfslockfilehash table (an
array of bucket head pointers, each heading a singly linked list of
struct nfslockfile records), walks every chain, counts the records and
classifies each one as lost or live.

The embedding below translates that C program, statement by statement,
into Lean. Machine pointers are plain naturals (a null pointer is 0).
The kvm primitives (kvm_openfiles, kvm_nlist, kvm_read) are modelled by
a `KvmImage` structure holding their outcomes; `kvm_read`'s result is a
pair of the return code `rc : Int` (-1 on error, otherwise the number of
bytes transferred, which may be fewer than requested) and the buffer
contents after the call, exactly the two things the C caller can see.
The unbounded `while (cur)` loop of the C program is rendered with a
fuel parameter: `none` means the fuel was exhausted while the C program
would still be looping, so `(∀ fuel, ... = none)` renders
non-termination of the C loop. The C `int` counters are rendered as
naturals (counts below 2^31 are unaffected; signed overflow of the C
counters is outside the scope of the claims treated here).
-/

/-- Element sizes on the target platform (FreeBSD/amd64, LP64):
sizeof(int) = 4, sizeof(void *) = sizeof(unsigned long) = 8. -/
def sizeof_int : Nat := 4

/-- Size of a pointer / unsigned long on the target platform. -/
def sizeof_voidp : Nat := 8

/-- Size of struct nfslockfile as laid out in the C source for amd64:
five LIST_HEAD single-pointer heads (40), the lf_hash LIST_ENTRY pair
(16), fhandle_t (28), the padded nfsv4lock (8 at offset 84) and the
trailing int lf_usecount, padded to 96 bytes in total. -/
def sizeof_nfslockfile : Nat := 96

/-- The symbol name macro SYMBOL_LOCKHASH of the C source. -/
def SYMBOL_LOCKHASH : String := "_nfslockhash"

/-- The symbol name macro SYMBOL_LOCKHASH_SIZE of the C source. -/
def SYMBOL_LOCKHASH_SIZE : String := "_nfsrv_lockhashsize"

/-- struct nfslockfile as declared in the C source: all kernel pointers
are carried as unsigned long (here Nat, 0 = NULL). The fields below
follow the declaration order of the source; lf_fh (the opaque file
handle bytes), the nfsv4lock fields and lf_usecount are carried as
plain numbers since the program never inspects them. -/
structure Nfslockfile where
  lf_open : Nat
  lf_deleg : Nat
  lf_lock : Nat
  lf_locallock : Nat
  lf_rollback : Nat
  le_next : Nat
  le_prev : Nat
  lf_fh : Nat
  nfslock_usecnt : Nat
  nfslock_lock : Nat
  lf_usecount : Int
deriving Repr, DecidableEq

/-- Outcome of one kvm_read(3) call, as visible to the caller: the
return code (-1 on error, otherwise the number of bytes actually
transferred) and the contents of the destination buffer after the
call. -/
structure KvmRead (α : Type) where
  rc : Int
  val : α
deriving Repr, DecidableEq

/-- A kernel memory image together with the behaviour of the kvm
primitives on it. `openOk` is whether kvm_openfiles succeeds;
`nlistFails` is whether kvm_nlist fails outright (returns -1);
`symtab` is the image's symbol table; the three read functions give the
outcome of kvm_read at each address for each of the three object shapes
the program reads (a 4-byte int, an 8-byte unsigned long, and a struct
nfslockfile). `geterr` is the string kvm_geterr reports. -/
structure KvmImage where
  openOk : Bool
  nlistFails : Bool
  symtab : String → Option Nat
  readInt : Nat → KvmRead Int
  readUlong : Nat → KvmRead Nat
  readLockfile : Nat → KvmRead Nfslockfile
  geterr : String

/-- Result of the kvm_nlist call on the two-symbol list of the program:
the return code and the n_value fields of symbols[0] (_nfslockhash) and
symbols[1] (_nfsrv_lockhashsize). Per kvm_nlist(3)/nlist(3), the call
returns -1 on error and otherwise the number of symbols that were NOT
found; a symbol that is not found has its n_value left as 0. -/
structure NlistResult where
  rc : Int
  lockhash_value : Nat
  lockhashsize_value : Nat
deriving Repr, DecidableEq

/-- kvm_nlist(kd, symbols) for the program's two-symbol list, following
the documented semantics: -1 on outright failure, otherwise the count
of symbols absent from the image's symbol table, each absent symbol
resolving to n_value = 0. -/
def kvm_nlist (img : KvmImage) : NlistResult :=
  if img.nlistFails then
    { rc := -1, lockhash_value := 0, lockhashsize_value := 0 }
  else
    { rc := (if (img.symtab SYMBOL_LOCKHASH).isNone then 1 else 0)
          + (if (img.symtab SYMBOL_LOCKHASH_SIZE).isNone then 1 else 0)
      lockhash_value := (img.symtab SYMBOL_LOCKHASH).getD 0
      lockhashsize_value := (img.symtab SYMBOL_LOCKHASH_SIZE).getD 0 }

/-- Observable behaviour of one program run: the lines written to
stdout and stderr, the process exit code, and whether the kvm handle
was released with kvm_close before termination. The C source contains
no kvm_close call, so every exit path of the embedding records
`kvmClosed := false`. -/
structure Output where
  stdout : List String
  stderr : List String
  exitCode : Nat
  kvmClosed : Bool
deriving Repr, DecidableEq

/-- An error exit of the C program: one fprintf(stderr, ...) line,
return 1, nothing on stdout, no kvm_close. -/
def errOut (msg : String) : Output :=
  { stdout := [], stderr := [msg], exitCode := 1, kvmClosed := false }

/-- The successful exit of the C program: the two printf lines with the
final counters, implicit return 0, no kvm_close. -/
def successOut (total_lockfiles leaked_lockfiles : Nat) : Output :=
  { stdout := ["Total file handles: " ++ toString total_lockfiles,
               "Lost file handles: " ++ toString leaked_lockfiles]
    stderr := [], exitCode := 0, kvmClosed := false }

/-- The classification at line 103 of the C source: a lockfile is
counted as lost when `!lockfile.lf_open.lh_first && !lockfile.lf_lock.lh_first`,
i.e. both the open list head and the lock list head are null. -/
def isLost (lockfile : Nfslockfile) : Bool :=
  lockfile.lf_open == 0 && lockfile.lf_lock == 0

/-- The inner `while (cur)` loop of main (lines 91-108): follow the
hash chain from `cur`, reading a struct nfslockfile at each node,
bumping total_lockfiles for every node and leaked_lockfiles for every
lost one, advancing through lf_hash.le_next. The C loop is unbounded;
`fuel` counts loop iterations still permitted in this rendering, and
`none` means the fuel ran out while the C program would still be
looping. The loop either exits an error path (Except.error carries the
whole process outcome) or falls through with the updated counters. -/
def walkChain (img : KvmImage) :
    Nat → Nat → Nat → Nat → Option (Except Output (Nat × Nat))
  | 0, _, _, _ => none
  | fuel + 1, cur, total_lockfiles, leaked_lockfiles =>
    if cur = 0 then
      some (Except.ok (total_lockfiles, leaked_lockfiles))
    else
      let r := img.readLockfile cur
      if r.rc < 0 then
        some (Except.error (errOut ("Failed to read lockfile: " ++ img.geterr)))
      else
        walkChain img fuel r.val.le_next (total_lockfiles + 1)
          (leaked_lockfiles + (if isLost r.val then 1 else 0))

/-- The outer `for (int bucket = 0; ...)` loop of main (lines 82-109):
`remaining` buckets are still to be scanned and `bucket` is the index
of the next one. Each iteration reads the bucket head pointer at
lockfilehashtable + bucket * sizeof(void *) and runs the chain walk on
it. -/
def bucketLoop (img : KvmImage) (lockfilehashtable : Nat) :
    Nat → Nat → Nat → Nat → Nat → Option (Except Output (Nat × Nat))
  | 0, _, _, total_lockfiles, leaked_lockfiles =>
    some (Except.ok (total_lockfiles, leaked_lockfiles))
  | remaining + 1, bucket, fuel, total_lockfiles, leaked_lockfiles =>
    let r := img.readUlong (lockfilehashtable + bucket * sizeof_voidp)
    if r.rc < 0 then
      some (Except.error (errOut ("Failed to read bucket pointer: " ++ img.geterr)))
    else
      match walkChain img fuel r.val total_lockfiles leaked_lockfiles with
      | none => none
      | some (Except.error e) => some (Except.error e)
      | some (Except.ok (t, l)) =>
        bucketLoop img lockfilehashtable remaining (bucket + 1) fuel t l

/-- The whole of main from src/nfs-lockfile-counter.c, translated
statement by statement: open the kvm handle, run kvm_nlist on the two
symbols, read the int lockfilehashsize through symbols[1].n_value, read
the unsigned long lockfilehashtable through symbols[0].n_value, then
run the bucket loop and print the two counters. Each C `return 1` after
an fprintf becomes `errOut`; falling off the end of main becomes
`successOut`. A negative lockfilehashsize makes the C for-loop run zero
times, which `Int.toNat` reproduces. `none` means the program has not
terminated within `fuel` iterations of the inner loop per bucket. -/
def mainFuel (img : KvmImage) (fuel : Nat) : Option Output :=
  if img.openOk = false then
    some (errOut ("Failed to open files for KVM: " ++ img.geterr))
  else
    let ns := kvm_nlist img
    if ns.rc < 0 then
      some (errOut ("Failed to read symbols: " ++ img.geterr))
    else
      let rSize := img.readInt ns.lockhashsize_value
      if rSize.rc < 0 then
        some (errOut ("Failed to read lockfilehash size: " ++ img.geterr))
      else
        let lockfilehashsize := rSize.val
        let rTbl := img.readUlong ns.lockhash_value
        if rTbl.rc < 0 then
          some (errOut ("Failed to read lockfilehash pointer: " ++ img.geterr))
        else
          let lockfilehashtable := rTbl.val
          match bucketLoop img lockfilehashtable lockfilehashsize.toNat 0 fuel 0 0 with
          | none => none
          | some (Except.error e) => some e
          | some (Except.ok (t, l)) => some (successOut t l)

/-- A record whose open-file and lock list heads are null but whose
delegation list head is not. -/
def lfDelegOnly : Nfslockfile :=
  { lf_open := 0, lf_deleg := 77, lf_lock := 0, lf_locallock := 0
    lf_rollback := 0, le_next := 0, le_prev := 0, lf_fh := 0
    nfslock_usecnt := 0, nfslock_lock := 0, lf_usecount := 1 }

/-- The symbol table shared by the concrete test images: _nfslockhash
at 1000, _nfsrv_lockhashsize at 2000. -/
def testSymtab : String → Option Nat := fun s =>
  if s = SYMBOL_LOCKHASH then some 1000
  else if s = SYMBOL_LOCKHASH_SIZE then some 2000
  else none

/-- Concrete image whose kvm_openfiles call fails. -/
def imgOpenFail : KvmImage :=
  { openOk := false, nlistFails := false, symtab := testSymtab
    readInt := fun _ => { rc := -1, val := 0 }
    readUlong := fun _ => { rc := -1, val := 0 }
    readLockfile := fun _ => { rc := -1, val := lfDelegOnly }
    geterr := "e" }



/-- A record with every field null or zero: lost, end of chain. -/
def lfZero : Nfslockfile :=
  { lf_open := 0, lf_deleg := 0, lf_lock := 0, lf_locallock := 0
    lf_rollback := 0, le_next := 0, le_prev := 0, lf_fh := 0
    nfslock_usecnt := 0, nfslock_lock := 0, lf_usecount := 0 }

/-- A live record (non-null open list head) chaining to address 300. -/
def lfLive : Nfslockfile :=
  { lfZero with lf_open := 9, le_next := 300 }

/-- Concrete healthy image: 2 buckets at table address 5000; bucket 0
holds one lost record at 100; bucket 1 holds the live record at 200
followed by a lost record at 300. Every read outside this layout
faults. -/
def imgSmall : KvmImage :=
  { openOk := true, nlistFails := false, symtab := testSymtab
    readInt := fun a => if a = 2000 then { rc := 4, val := 2 } else { rc := -1, val := 0 }
    readUlong := fun a =>
      if a = 1000 then { rc := 8, val := 5000 }
      else if a = 5000 then { rc := 8, val := 100 }
      else if a = 5008 then { rc := 8, val := 200 }
      else { rc := -1, val := 0 }
    readLockfile := fun a =>
      if a = 100 then { rc := 96, val := lfZero }
      else if a = 200 then { rc := 96, val := lfLive }
      else if a = 300 then { rc := 96, val := lfZero }
      else { rc := -1, val := lfZero }
    geterr := "e" }


/-- Concrete image with an empty table: the bucket count reads as 0 and
every other read of kernel memory faults, so any dereference of the
bucket array would abort the scan. -/
def imgEmpty : KvmImage :=
  { openOk := true, nlistFails := false, symtab := testSymtab
    readInt := fun a => if a = 2000 then { rc := 4, val := 0 } else { rc := -1, val := 0 }
    readUlong := fun a => if a = 1000 then { rc := 8, val := 5000 } else { rc := -1, val := 0 }
    readLockfile := fun _ => { rc := -1, val := lfZero }
    geterr := "e" }


/-- Concrete image whose single bucket chain is a self-loop: the record
at 4096 has le_next = 4096, pointing back to the address just
visited. -/
def imgCyc : KvmImage :=
  { openOk := true, nlistFails := false, symtab := testSymtab
    readInt := fun a => if a = 2000 then { rc := 4, val := 1 } else { rc := -1, val := 0 }
    readUlong := fun a =>
      if a = 1000 then { rc := 8, val := 5000 }
      else if a = 5000 then { rc := 8, val := 4096 }
      else { rc := -1, val := 0 }
    readLockfile := fun a =>
      if a = 4096 then { rc := 96, val := { lfZero with le_next := 4096 } }
      else { rc := -1, val := lfZero }
    geterr := "e" }


/-- Concrete image whose symbol table lacks _nfsrv_lockhashsize, so
kvm_nlist reports one unresolved symbol (return value 1) and leaves
symbols[1].n_value = 0. Address 0 happens to read as a 0 int. -/
def imgMissingSym : KvmImage :=
  { openOk := true, nlistFails := false
    symtab := fun s => if s = SYMBOL_LOCKHASH then some 1000 else none
    readInt := fun a => if a = 0 then { rc := 4, val := 0 } else { rc := -1, val := 0 }
    readUlong := fun a => if a = 1000 then { rc := 8, val := 5000 } else { rc := -1, val := 0 }
    readLockfile := fun _ => { rc := -1, val := lfZero }
    geterr := "e" }


/-- Concrete image whose bucket count reads as the negative int -7
(e.g. an ABI mismatch); all bucket-array reads fault. -/
def imgNegSize : KvmImage :=
  { openOk := true, nlistFails := false, symtab := testSymtab
    readInt := fun a => if a = 2000 then { rc := 4, val := -7 } else { rc := -1, val := 0 }
    readUlong := fun a => if a = 1000 then { rc := 8, val := 5000 } else { rc := -1, val := 0 }
    readLockfile := fun _ => { rc := -1, val := lfZero }
    geterr := "e" }


/-- Concrete image where the kvm_read of the bucket count transfers
only 2 of the 4 requested bytes (return value 2) leaving 0 in the
buffer: a short read. -/
def imgShort : KvmImage :=
  { openOk := true, nlistFails := false, symtab := testSymtab
    readInt := fun a => if a = 2000 then { rc := 2, val := 0 } else { rc := 4, val := 0 }
    readUlong := fun a => if a = 1000 then { rc := 8, val := 5000 } else { rc := 8, val := 0 }
    readLockfile := fun _ => { rc := 96, val := lfZero }
    geterr := "e" }


/-- Number of records in a chain that the classifier counts as lost. -/
def lostCount : List Nfslockfile → Nat
  | [] => 0
  | lockfile :: rest => (if isLost lockfile then 1 else 0) + lostCount rest

/-- Total number of records across all bucket chains. -/
def sumLen (chains : List (List Nfslockfile)) : Nat :=
  (chains.map List.length).sum

/-- Total number of lost records across all bucket chains. -/
def sumLost : List (List Nfslockfile) → Nat
  | [] => 0
  | c :: cs => lostCount c + sumLost cs

/-- The image lays out the given chain starting at pointer p: the empty
chain is the null pointer, and a nonempty chain is a non-null pointer at
which a full kvm_read yields its head record, whose le_next lays out the
tail. -/
def chainRep (img : KvmImage) : Nat → List Nfslockfile → Prop
  | p, [] => p = 0
  | p, lockfile :: rest =>
    p ≠ 0 ∧
    img.readLockfile p = { rc := (sizeof_nfslockfile : Int), val := lockfile } ∧
    chainRep img lockfile.le_next rest

/-- The image lays out the given list of chains in consecutive buckets
starting at index `bucket` of the bucket array at `lockfilehashtable`:
each bucket's head pointer reads fully and heads the corresponding
chain. -/
def bucketsRep (img : KvmImage) (lockfilehashtable : Nat) :
    Nat → List (List Nfslockfile) → Prop
  | _, [] => True
  | bucket, c :: cs =>
    (img.readUlong (lockfilehashtable + bucket * sizeof_voidp)).rc = (sizeof_voidp : Int) ∧
    chainRep img (img.readUlong (lockfilehashtable + bucket * sizeof_voidp)).val c ∧
    bucketsRep img lockfilehashtable (bucket + 1) cs

/-- Walking a chain laid out in the image counts exactly its records:
with enough fuel, the inner loop terminates normally and adds the
chain's length to total_lockfiles and its lost count to
leaked_lockfiles. -/
theorem walkChain_rep (img : KvmImage) (c : List Nfslockfile) :
    ∀ p t l fuel, chainRep img p c → c.length < fuel →
      walkChain img fuel p t l =
        some (Except.ok (t + c.length, l + lostCount c)) := by
  induction c with
  | nil =>
    intro p t l fuel hrep hfuel
    cases fuel with
    | zero => omega
    | succ f =>
      have hp : p = 0 := hrep
      simp [walkChain, hp, lostCount]
  | cons lockfile rest ih =>
    intro p t l fuel hrep hfuel
    cases fuel with
    | zero => simp at hfuel
    | succ f =>
      obtain ⟨hp, hread, hrest⟩ := hrep
      have hih := ih lockfile.le_next (t + 1)
        (l + (if isLost lockfile then 1 else 0)) f hrest
        (by simp only [List.length_cons] at hfuel; omega)
      simp only [walkChain, if_neg hp, hread]
      rw [if_neg (Int.not_lt.mpr (Int.natCast_nonneg _)), hih]
      cases h : isLost lockfile <;>
        simp only [lostCount, h, List.length_cons, Option.some.injEq,
          Except.ok.injEq, Prod.mk.injEq, if_true, if_false] <;>
        omega

/-- The bucket loop over chains laid out in the image adds up the
records of all the chains: with enough fuel per chain, it terminates
normally with the summed counters. -/
theorem bucketLoop_rep (img : KvmImage) (lockfilehashtable : Nat)
    (cs : List (List Nfslockfile)) :
    ∀ bucket t l fuel, bucketsRep img lockfilehashtable bucket cs →
      (∀ c ∈ cs, c.length < fuel) →
      bucketLoop img lockfilehashtable cs.length bucket fuel t l =
        some (Except.ok (t + sumLen cs, l + sumLost cs)) := by
  induction cs with
  | nil =>
    intro bucket t l fuel _ _
    simp [bucketLoop, sumLen, sumLost]
  | cons c cs ih =>
    intro bucket t l fuel hrep hfuel
    obtain ⟨hrc, hchain, hrest⟩ := hrep
    have hwalk := walkChain_rep img c _ t l fuel hchain (hfuel c (by simp))
    have hnotneg : ¬((img.readUlong (lockfilehashtable + bucket * sizeof_voidp)).rc < 0) := by
      rw [hrc]; exact Int.not_lt.mpr (Int.natCast_nonneg _)
    simp only [List.length_cons, bucketLoop, if_neg hnotneg]
    rw [hwalk]
    have hihres := ih (bucket + 1) (t + c.length) (l + lostCount c) fuel hrest
      (fun c2 hc2 => hfuel c2 (by simp [hc2]))
    show bucketLoop img lockfilehashtable cs.length (bucket + 1) fuel
      (t + c.length) (l + lostCount c) = _
    rw [hihres]
    simp only [Option.some.injEq, Except.ok.injEq, Prod.mk.injEq, sumLen, sumLost,
      List.map_cons, List.sum_cons]
    constructor <;> omega

/-- Every error the chain walk can produce is an errOut: one stderr
line, exit code 1, empty stdout. -/
theorem walkChain_error_shape (img : KvmImage) :
    ∀ fuel cur t l e, walkChain img fuel cur t l = some (Except.error e) →
      ∃ msg, e = errOut msg := by
  intro fuel
  induction fuel with
  | zero => intro cur t l e h; simp [walkChain] at h
  | succ f ih =>
    intro cur t l e h
    by_cases hc : cur = 0
    · simp [walkChain, hc] at h
    · simp only [walkChain, if_neg hc] at h
      by_cases hr : (img.readLockfile cur).rc < 0
      · rw [if_pos hr] at h
        simp only [Option.some.injEq, Except.error.injEq] at h
        exact ⟨_, h.symm⟩
      · rw [if_neg hr] at h
        exact ih _ _ _ _ h

/-- The chain walk only ever grows both counters, and grows
leaked_lockfiles by at most as much as total_lockfiles: each visited
record adds exactly 1 to the total and at most 1 to the lost count. -/
theorem walkChain_counts (img : KvmImage) :
    ∀ fuel cur t l t2 l2,
      walkChain img fuel cur t l = some (Except.ok (t2, l2)) →
      t ≤ t2 ∧ l ≤ l2 ∧ l2 + t ≤ l + t2 := by
  intro fuel
  induction fuel with
  | zero => intro cur t l t2 l2 h; simp [walkChain] at h
  | succ f ih =>
    intro cur t l t2 l2 h
    by_cases hc : cur = 0
    · simp only [walkChain, if_pos hc, Option.some.injEq, Except.ok.injEq,
        Prod.mk.injEq] at h
      omega
    · simp only [walkChain, if_neg hc] at h
      by_cases hr : (img.readLockfile cur).rc < 0
      · rw [if_pos hr] at h; simp at h
      · rw [if_neg hr] at h
        have := ih _ _ _ _ _ h
        cases hlost : isLost (img.readLockfile cur).val <;>
          rw [hlost] at this <;> simp at this <;> omega

/-- Every error the bucket loop can produce is an errOut. -/
theorem bucketLoop_error_shape (img : KvmImage) (lockfilehashtable : Nat) :
    ∀ remaining bucket fuel t l e,
      bucketLoop img lockfilehashtable remaining bucket fuel t l =
        some (Except.error e) →
      ∃ msg, e = errOut msg := by
  intro remaining
  induction remaining with
  | zero => intro bucket fuel t l e h; simp [bucketLoop] at h
  | succ n ih =>
    intro bucket fuel t l e h
    simp only [bucketLoop] at h
    by_cases hr : (img.readUlong (lockfilehashtable + bucket * sizeof_voidp)).rc < 0
    · rw [if_pos hr] at h
      simp only [Option.some.injEq, Except.error.injEq] at h
      exact ⟨_, h.symm⟩
    · rw [if_neg hr] at h
      cases hw : walkChain img fuel
          (img.readUlong (lockfilehashtable + bucket * sizeof_voidp)).val t l with
      | none => rw [hw] at h; simp at h
      | some r =>
        rw [hw] at h
        cases r with
        | error e2 =>
          simp only [Option.some.injEq, Except.error.injEq] at h
          subst h
          exact walkChain_error_shape img _ _ _ _ _ hw
        | ok p =>
          exact ih _ _ _ _ _ h

/-- The bucket loop only ever grows both counters, keeping the growth
of leaked_lockfiles bounded by the growth of total_lockfiles. -/
theorem bucketLoop_counts (img : KvmImage) (lockfilehashtable : Nat) :
    ∀ remaining bucket fuel t l t2 l2,
      bucketLoop img lockfilehashtable remaining bucket fuel t l =
        some (Except.ok (t2, l2)) →
      t ≤ t2 ∧ l ≤ l2 ∧ l2 + t ≤ l + t2 := by
  intro remaining
  induction remaining with
  | zero =>
    intro bucket fuel t l t2 l2 h
    simp only [bucketLoop, Option.some.injEq, Except.ok.injEq, Prod.mk.injEq] at h
    omega
  | succ n ih =>
    intro bucket fuel t l t2 l2 h
    simp only [bucketLoop] at h
    by_cases hr : (img.readUlong (lockfilehashtable + bucket * sizeof_voidp)).rc < 0
    · rw [if_pos hr] at h; simp at h
    · rw [if_neg hr] at h
      cases hw : walkChain img fuel
          (img.readUlong (lockfilehashtable + bucket * sizeof_voidp)).val t l with
      | none => rw [hw] at h; simp at h
      | some r =>
        rw [hw] at h
        cases r with
        | error e2 => simp at h
        | ok p =>
          have h1 := walkChain_counts img fuel _ t l p.1 p.2 (by rw [hw])
          have h2 := ih _ _ _ _ _ _ h
          omega

/-- If every kvm_read of a lockfile reports a nonnegative return code,
the chain walk can never take its error exit: whatever it returns is a
normal fall-through with counters. -/
theorem walkChain_allreads_ok (img : KvmImage)
    (hLf : ∀ a, 0 ≤ (img.readLockfile a).rc) :
    ∀ fuel cur t l r, walkChain img fuel cur t l = some r →
      ∃ t2 l2, r = Except.ok (t2, l2) := by
  intro fuel
  induction fuel with
  | zero => intro cur t l r h; simp [walkChain] at h
  | succ f ih =>
    intro cur t l r h
    by_cases hc : cur = 0
    · simp only [walkChain, if_pos hc, Option.some.injEq] at h
      exact ⟨_, _, h.symm⟩
    · simp only [walkChain, if_neg hc,
        if_neg (Int.not_lt.mpr (hLf cur))] at h
      exact ih _ _ _ _ h

/-- If every kvm_read of a bucket pointer and of a lockfile reports a
nonnegative return code, the bucket loop can never take an error exit. -/
theorem bucketLoop_allreads_ok (img : KvmImage) (lockfilehashtable : Nat)
    (hUl : ∀ a, 0 ≤ (img.readUlong a).rc)
    (hLf : ∀ a, 0 ≤ (img.readLockfile a).rc) :
    ∀ remaining bucket fuel t l r,
      bucketLoop img lockfilehashtable remaining bucket fuel t l = some r →
      ∃ t2 l2, r = Except.ok (t2, l2) := by
  intro remaining
  induction remaining with
  | zero =>
    intro bucket fuel t l r h
    simp only [bucketLoop, Option.some.injEq] at h
    exact ⟨_, _, h.symm⟩
  | succ n ih =>
    intro bucket fuel t l r h
    simp only [bucketLoop,
      if_neg (Int.not_lt.mpr (hUl (lockfilehashtable + bucket * sizeof_voidp)))] at h
    cases hw : walkChain img fuel
        (img.readUlong (lockfilehashtable + bucket * sizeof_voidp)).val t l with
    | none => rw [hw] at h; simp at h
    | some r2 =>
      rw [hw] at h
      obtain ⟨t2, l2, hr2⟩ := walkChain_allreads_ok img hLf _ _ _ _ _ hw
      subst hr2
      exact ih _ _ _ _ _ h

/-- A record whose le_next points back at its own address keeps the
inner while loop spinning: no amount of fuel makes the chain walk
return. -/
theorem walkChain_selfloop (img : KvmImage) (a : Nat) (ha : a ≠ 0)
    (hrc : 0 ≤ (img.readLockfile a).rc)
    (hnext : (img.readLockfile a).val.le_next = a) :
    ∀ fuel t l, walkChain img fuel a t l = none := by
  intro fuel
  induction fuel with
  | zero => intro t l; rfl
  | succ f ih =>
    intro t l
    simp only [walkChain, if_neg ha, if_neg (Int.not_lt.mpr hrc), hnext]
    exact ih _ _

/-- When the open, nlist and the two pre-loop reads all succeed, main
is exactly the bucket loop run on the values those reads produced,
with its normal exit printed and its error exit propagated. -/
theorem mainFuel_eq_loop (img : KvmImage) (aT aS lockfilehashtable : Nat)
    (hashsize : Int) (fuel : Nat)
    (hopen : img.openOk = true)
    (hnl : img.nlistFails = false)
    (hsym0 : img.symtab SYMBOL_LOCKHASH = some aT)
    (hsym1 : img.symtab SYMBOL_LOCKHASH_SIZE = some aS)
    (hszrc : 0 ≤ (img.readInt aS).rc)
    (hszval : (img.readInt aS).val = hashsize)
    (htrc : 0 ≤ (img.readUlong aT).rc)
    (htval : (img.readUlong aT).val = lockfilehashtable) :
    mainFuel img fuel =
      match bucketLoop img lockfilehashtable hashsize.toNat 0 fuel 0 0 with
      | none => none
      | some (Except.error e) => some e
      | some (Except.ok (t, l)) => some (successOut t l) := by
  simp only [mainFuel, hopen, kvm_nlist, hnl, hsym0, hsym1]
  simp only [Option.isNone_some, Option.getD_some, Bool.false_eq_true, if_false]
  rw [if_neg (Int.not_lt.mpr hszrc), if_neg (Int.not_lt.mpr htrc), hszval, htval]
  norm_num

/-- Every terminating run of main produces either the two-line success
report with lost ≤ total, or a single-line error exit. -/
theorem mainFuel_shape (img : KvmImage) (fuel : Nat) (out : Output)
    (h : mainFuel img fuel = some out) :
    (∃ t l, out = successOut t l ∧ l ≤ t) ∨ (∃ msg, out = errOut msg) := by
  simp only [mainFuel] at h
  by_cases h1 : img.openOk = false
  · rw [if_pos h1] at h
    simp only [Option.some.injEq] at h
    exact Or.inr ⟨_, h.symm⟩
  · rw [if_neg h1] at h
    by_cases h2 : (kvm_nlist img).rc < 0
    · rw [if_pos h2] at h
      simp only [Option.some.injEq] at h
      exact Or.inr ⟨_, h.symm⟩
    · rw [if_neg h2] at h
      by_cases h3 : (img.readInt (kvm_nlist img).lockhashsize_value).rc < 0
      · rw [if_pos h3] at h
        simp only [Option.some.injEq] at h
        exact Or.inr ⟨_, h.symm⟩
      · rw [if_neg h3] at h
        by_cases h4 : (img.readUlong (kvm_nlist img).lockhash_value).rc < 0
        · rw [if_pos h4] at h
          simp only [Option.some.injEq] at h
          exact Or.inr ⟨_, h.symm⟩
        · rw [if_neg h4] at h
          cases hb : bucketLoop img (img.readUlong (kvm_nlist img).lockhash_value).val
              (img.readInt (kvm_nlist img).lockhashsize_value).val.toNat 0 fuel 0 0 with
          | none => rw [hb] at h; simp at h
          | some r =>
            rw [hb] at h
            cases r with
            | error e =>
              simp only [Option.some.injEq] at h
              obtain ⟨msg, hmsg⟩ := bucketLoop_error_shape img _ _ _ _ _ _ _ hb
              exact Or.inr ⟨msg, by rw [← h, hmsg]⟩
            | ok p =>
              obtain ⟨t, l⟩ := p
              simp only [Option.some.injEq] at h
              have hc := bucketLoop_counts img _ _ _ _ _ _ _ _ hb
              exact Or.inl ⟨t, l, h.symm, by omega⟩

/-- The run never finishes: for every iteration allowance the program
is still inside its loops. -/
def loopsForever (img : KvmImage) : Prop :=
  ∀ fuel, mainFuel img fuel = none

/-- C1 counterexample: the record lfDelegOnly has a non-null delegation
list pointer (an association pointer), yet the program classifies it as
lost, contradicting the claim that a record with at least one non-null
association pointer is never classified lost. -/
theorem classifier_ignores_deleg_pointer :
    lfDelegOnly.lf_deleg ≠ 0 ∧ isLost lfDelegOnly = true := by
  decide

/-- C1 (amended): classification reports a record lost if and only if
its open-file list pointer and its lock list pointer are both null; the
delegation, local-lock and rollback list pointers are never consulted,
so classification is unchanged under any values of those three
fields. -/
theorem isLost_iff_open_and_lock_null :
    ∀ lockfile : Nfslockfile,
      (isLost lockfile = true ↔ lockfile.lf_open = 0 ∧ lockfile.lf_lock = 0) ∧
      ∀ d ll rb,
        isLost { lockfile with lf_deleg := d, lf_locallock := ll, lf_rollback := rb } =
          isLost lockfile := by
  intro lockfile
  constructor
  · simp [isLost]
  · intro d ll rb
    rfl

/-- C3 (code bug): on an image whose symbol table lacks the
bucket-count symbol _nfsrv_lockhashsize, kvm_nlist reports 1 unresolved
symbol (a nonnegative return), the program's `rc < 0` check does not
fire, and the scan continues with symbols[1].n_value = 0: here it runs
to completion, prints its two stdout lines and exits 0 — the missing
symbol is degraded into a continued scan instead of a fatal error
naming the symbol. -/
theorem missing_symbol_scan_completes :
    imgMissingSym.symtab SYMBOL_LOCKHASH_SIZE = none ∧
    (kvm_nlist imgMissingSym).rc = 1 ∧
    mainFuel imgMissingSym 0 = some (successOut 0 0) := by
  decide

/-- C5: every terminating run with a non-zero exit code (i.e. any error
exit: open failure, nlist failure, or a failed read at any point of the
traversal) wrote nothing to stdout and exactly one diagnostic line to
stderr, and its exit code is 1. -/
theorem error_exit_single_line_no_stdout (img : KvmImage) (fuel : Nat)
    (out : Output) (h : mainFuel img fuel = some out)
    (herr : out.exitCode ≠ 0) :
    out.stdout = [] ∧ out.exitCode = 1 ∧ ∃ msg, out.stderr = [msg] := by
  rcases mainFuel_shape img fuel out h with ⟨t, l, hout, _⟩ | ⟨msg, hout⟩
  · rw [hout] at herr
    simp [successOut] at herr
  · rw [hout]
    exact ⟨rfl, rfl, msg, rfl⟩

/-- C5 witness: the run on imgOpenFail errors out with one stderr line
and empty stdout. -/
theorem error_exit_single_line_no_stdout_witness :
    (errOut ("Failed to open files for KVM: " ++ "e")).stdout = [] ∧
    (errOut ("Failed to open files for KVM: " ++ "e")).exitCode = 1 ∧
    ∃ msg, (errOut ("Failed to open files for KVM: " ++ "e")).stderr = [msg] :=
  error_exit_single_line_no_stdout imgOpenFail 0
    (errOut ("Failed to open files for KVM: " ++ "e")) (by decide) (by decide)

/-- C9 counterexample: a successful run terminates with the kvm handle
still unreleased (kvmClosed = false), contradicting the claim that the
handle is released on every exit path before the process terminates:
the C source contains no kvm_close call at all. -/
theorem handle_left_open_on_success :
    mainFuel imgSmall 4 = some (successOut 3 2) ∧
    (successOut 3 2).kvmClosed = false := by
  decide

/-- C9 (amended): on every exit path — success or any error — the kvm
handle is never explicitly released; it is reclaimed only by process
termination. -/
theorem kvm_handle_never_closed (img : KvmImage) (fuel : Nat) (out : Output)
    (h : mainFuel img fuel = some out) :
    out.kvmClosed = false := by
  rcases mainFuel_shape img fuel out h with ⟨t, l, hout, _⟩ | ⟨msg, hout⟩ <;>
    rw [hout] <;> rfl

/-- C9 witness: the successful run on imgSmall ends with the handle
unreleased. -/
theorem kvm_handle_never_closed_witness : (successOut 3 2).kvmClosed = false :=
  kvm_handle_never_closed imgSmall 4 (successOut 3 2) (by decide)

/-- C10: both counters start at 0, each visited record adds exactly 1
to the total and at most 1 to the lost count (walkChain_counts and
bucketLoop_counts make both monotonically non-decreasing with the lost
growth bounded by the total growth), hence every run that exits 0
reports counts with lost ≤ total. -/
theorem lost_le_total_invariant (img : KvmImage) (fuel : Nat) (out : Output)
    (h : mainFuel img fuel = some out) (hok : out.exitCode = 0) :
    ∃ t l, out = successOut t l ∧ l ≤ t := by
  rcases mainFuel_shape img fuel out h with ⟨t, l, hout, hle⟩ | ⟨msg, hout⟩
  · exact ⟨t, l, hout, hle⟩
  · rw [hout] at hok
    simp [errOut] at hok

/-- C10 witness: the successful run on imgSmall reports 2 lost out of 3
total, and 2 ≤ 3. -/
theorem lost_le_total_invariant_witness :
    ∃ t l, successOut 3 2 = successOut t l ∧ l ≤ t :=
  lost_le_total_invariant imgSmall 4 (successOut 3 2) (by decide) (by rfl)

/-- C2 counterexample: on the concrete image imgCyc, whose single
bucket chain is a record pointing back to its own (already-visited)
address, the scan never terminates: for every iteration allowance it is
still looping, so it neither fails with any error nor returns any
result — contradicting the claim that the traversal terminates and
reports an InconsistentStructure error. No such error exists anywhere
in the program. -/
theorem cyclic_image_scan_never_returns : loopsForever imgCyc := by
  intro fuel
  have hw := walkChain_selfloop imgCyc 4096 (by decide) (by decide) (by decide)
  have hb : bucketLoop imgCyc 5000 1 0 fuel 0 0 = none := by
    simp only [bucketLoop]
    rw [if_neg (by decide)]
    have hv : (imgCyc.readUlong (5000 + 0 * sizeof_voidp)).val = 4096 := by decide
    rw [hv, hw fuel 0 0]
  rw [mainFuel_eq_loop imgCyc 1000 2000 5000 1 fuel rfl rfl (by decide) (by decide)
    (by decide) (by decide) (by decide) (by decide)]
  rw [show ((1 : Int)).toNat = 1 from rfl, hb]

/-- C2 (amended): the walker has no visit bound and no
InconsistentStructure error: on any image where a positive bucket count
is read and the head record of bucket 0 has a le_next pointer referring
back to its own already-visited address, the traversal never
terminates — for every iteration allowance the scan is still running,
and no error or ScanResult is ever produced. -/
theorem scan_cycle_diverges (img : KvmImage)
    (aT aS lockfilehashtable a n : Nat)
    (hopen : img.openOk = true)
    (hnl : img.nlistFails = false)
    (hsym0 : img.symtab SYMBOL_LOCKHASH = some aT)
    (hsym1 : img.symtab SYMBOL_LOCKHASH_SIZE = some aS)
    (hszrc : 0 ≤ (img.readInt aS).rc)
    (hszval : (img.readInt aS).val = Int.ofNat (n + 1))
    (htrc : 0 ≤ (img.readUlong aT).rc)
    (htval : (img.readUlong aT).val = lockfilehashtable)
    (hheadrc : 0 ≤ (img.readUlong (lockfilehashtable + 0 * sizeof_voidp)).rc)
    (hheadval : (img.readUlong (lockfilehashtable + 0 * sizeof_voidp)).val = a)
    (ha : a ≠ 0)
    (hrc : 0 ≤ (img.readLockfile a).rc)
    (hnext : (img.readLockfile a).val.le_next = a) :
    ∀ fuel, mainFuel img fuel = none := by
  intro fuel
  rw [mainFuel_eq_loop img aT aS lockfilehashtable (Int.ofNat (n + 1)) fuel hopen hnl
    hsym0 hsym1 hszrc hszval htrc htval]
  rw [show (Int.ofNat (n + 1)).toNat = n + 1 from rfl]
  simp only [bucketLoop, if_neg (Int.not_lt.mpr hheadrc), hheadval]
  rw [walkChain_selfloop img a ha hrc hnext fuel 0 0]

/-- C2 witness: the amended statement applied to the concrete cyclic
image at fuel 9. -/
theorem scan_cycle_diverges_witness : mainFuel imgCyc 9 = none :=
  scan_cycle_diverges imgCyc 1000 2000 5000 4096 0 rfl rfl (by decide) (by decide)
    (by decide) (by decide) (by decide) (by decide) (by decide) (by decide)
    (by decide) (by decide) (by decide) 9

/-- C4: for any table layout — any bucket count B = chains.length, any
distribution of records over the buckets, any order within each
chain — a run with enough fuel succeeds and reports total equal to the
exact number R = sumLen chains of records in the table (and lost equal
to the number of records the classifier marks lost). -/
theorem scan_total_eq_records (img : KvmImage) (aT aS lockfilehashtable : Nat)
    (chains : List (List Nfslockfile)) (fuel : Nat)
    (hopen : img.openOk = true)
    (hnl : img.nlistFails = false)
    (hsym0 : img.symtab SYMBOL_LOCKHASH = some aT)
    (hsym1 : img.symtab SYMBOL_LOCKHASH_SIZE = some aS)
    (hszrc : 0 ≤ (img.readInt aS).rc)
    (hszval : (img.readInt aS).val = Int.ofNat chains.length)
    (htrc : 0 ≤ (img.readUlong aT).rc)
    (htval : (img.readUlong aT).val = lockfilehashtable)
    (hrep : bucketsRep img lockfilehashtable 0 chains)
    (hfuel : ∀ c ∈ chains, c.length < fuel) :
    mainFuel img fuel = some (successOut (sumLen chains) (sumLost chains)) := by
  rw [mainFuel_eq_loop img aT aS lockfilehashtable (Int.ofNat chains.length) fuel
    hopen hnl hsym0 hsym1 hszrc hszval htrc htval]
  rw [show (Int.ofNat chains.length).toNat = chains.length from rfl]
  rw [bucketLoop_rep img lockfilehashtable chains 0 0 0 fuel hrep hfuel]
  simp

/-- The layout of imgSmall as a list of bucket chains: one lost record
in bucket 0, a live record followed by a lost record in bucket 1. -/
def chainsSmall : List (List Nfslockfile) := [[lfZero], [lfLive, lfZero]]

/-- imgSmall lays chainsSmall out in its bucket array at 5000. -/
theorem chainsSmall_rep : bucketsRep imgSmall 5000 0 chainsSmall := by
  simp only [chainsSmall, bucketsRep, chainRep]
  decide

/-- C4 witness: the run on imgSmall reports exactly its 3 records (2 of
them lost). -/
theorem scan_total_eq_records_witness :
    mainFuel imgSmall 4 = some (successOut (sumLen chainsSmall) (sumLost chainsSmall)) :=
  scan_total_eq_records imgSmall 1000 2000 5000 chainsSmall 4 rfl rfl (by decide)
    (by decide) (by decide) (by decide) (by decide) (by decide) chainsSmall_rep
    (by decide)

/-- C6 counterexample: the bucket count reads as the negative value -7,
which is outside the claimed invariant range, yet the scan does not
abort: it completes successfully, printing zero totals and exiting 0 —
there is no range check (and no MAX_SANE_BUCKETS constant) in the
program at all. -/
theorem negative_bucket_count_not_rejected :
    (imgNegSize.readInt 2000).val < 0 ∧
    mainFuel imgNegSize 0 = some (successOut 0 0) := by
  decide

/-- C6 (amended): the bucket count is read once at scan start, but no
range validation is performed: an out-of-range negative count does not
abort the scan; the bucket loop simply runs zero times and the scan
reports total 0, lost 0 with exit code 0. -/
theorem out_of_range_bucket_count_scan_succeeds (img : KvmImage)
    (aT aS lockfilehashtable : Nat) (hashsize : Int) (fuel : Nat)
    (hopen : img.openOk = true)
    (hnl : img.nlistFails = false)
    (hsym0 : img.symtab SYMBOL_LOCKHASH = some aT)
    (hsym1 : img.symtab SYMBOL_LOCKHASH_SIZE = some aS)
    (hszrc : 0 ≤ (img.readInt aS).rc)
    (hszval : (img.readInt aS).val = hashsize)
    (hneg : hashsize < 0)
    (htrc : 0 ≤ (img.readUlong aT).rc)
    (htval : (img.readUlong aT).val = lockfilehashtable) :
    mainFuel img fuel = some (successOut 0 0) := by
  rw [mainFuel_eq_loop img aT aS lockfilehashtable hashsize fuel hopen hnl
    hsym0 hsym1 hszrc hszval htrc htval]
  rw [Int.toNat_of_nonpos (le_of_lt hneg)]
  simp [bucketLoop]

/-- C6 witness: the amended statement applied to the concrete image
whose bucket count reads as -7. -/
theorem out_of_range_bucket_count_scan_succeeds_witness :
    mainFuel imgNegSize 0 = some (successOut 0 0) :=
  out_of_range_bucket_count_scan_succeeds imgNegSize 1000 2000 5000 (-7) 0 rfl rfl
    (by decide) (by decide) (by decide) (by decide) (by decide) (by decide)
    (by decide)

/-- C8: whenever the bucket count reads as 0 (with the handle open, the
symbols resolved and the two pre-loop reads succeeding), the scan
succeeds with total 0 and lost 0 — printing exactly the two zero lines
and exiting 0 — for every image whatsoever at all other addresses: the
bucket array address is never dereferenced, since the result does not
depend on readUlong at any other address or on readLockfile at all. -/
theorem zero_bucket_count_reports_zero (img : KvmImage)
    (aT aS lockfilehashtable : Nat) (fuel : Nat)
    (hopen : img.openOk = true)
    (hnl : img.nlistFails = false)
    (hsym0 : img.symtab SYMBOL_LOCKHASH = some aT)
    (hsym1 : img.symtab SYMBOL_LOCKHASH_SIZE = some aS)
    (hszrc : 0 ≤ (img.readInt aS).rc)
    (hszval : (img.readInt aS).val = 0)
    (htrc : 0 ≤ (img.readUlong aT).rc)
    (htval : (img.readUlong aT).val = lockfilehashtable) :
    mainFuel img fuel = some (successOut 0 0) := by
  rw [mainFuel_eq_loop img aT aS lockfilehashtable 0 fuel hopen hnl
    hsym0 hsym1 hszrc hszval htrc htval]
  simp [bucketLoop]

/-- C8 witness: the zero-bucket-count statement applied to imgEmpty, an
image on which every read of the bucket array or of any record would
fault — so the successful zero report also exhibits that those
addresses were never dereferenced. -/
theorem zero_bucket_count_reports_zero_witness :
    mainFuel imgEmpty 0 = some (successOut 0 0) :=
  zero_bucket_count_reports_zero imgEmpty 1000 2000 5000 0 rfl rfl (by decide)
    (by decide) (by decide) (by decide) (by decide) (by decide)

/-- C7 counterexample: the kvm_read of the bucket count on imgShort
transfers only 2 of the 4 requested bytes (a short read, return code 2),
yet the scan is not aborted: it continues with the buffer contents and
completes successfully — contradicting the claim that a read returning
fewer bytes than requested is treated as a fault that aborts the
scan. -/
theorem short_read_scan_continues :
    0 ≤ (imgShort.readInt 2000).rc ∧
    (imgShort.readInt 2000).rc < (sizeof_int : Int) ∧
    mainFuel imgShort 0 = some (successOut 0 0) := by
  decide

/-- C7 (amended): the program checks only for a negative kvm_read
return code; a short read (0 ≤ rc < requested size) is not detected and
the scan continues with whatever bytes are in the buffer. Consequently,
whenever the handle opens, kvm_nlist does not fail outright and every
read reports a nonnegative return code — short or full — a terminating
scan always ends in the success report; only a negative return code can
abort it. -/
theorem scan_aborts_only_on_negative_rc (img : KvmImage) (fuel : Nat)
    (out : Output)
    (hopen : img.openOk = true)
    (hnl : img.nlistFails = false)
    (hInt : ∀ a, 0 ≤ (img.readInt a).rc)
    (hUl : ∀ a, 0 ≤ (img.readUlong a).rc)
    (hLf : ∀ a, 0 ≤ (img.readLockfile a).rc)
    (h : mainFuel img fuel = some out) :
    ∃ t l, out = successOut t l := by
  have hnlrc : ¬(kvm_nlist img).rc < 0 := by
    simp only [kvm_nlist, hnl, Bool.false_eq_true, if_false]
    split_ifs <;> norm_num
  simp only [mainFuel] at h
  rw [if_neg (by simp [hopen]), if_neg hnlrc,
    if_neg (Int.not_lt.mpr (hInt (kvm_nlist img).lockhashsize_value)),
    if_neg (Int.not_lt.mpr (hUl (kvm_nlist img).lockhash_value))] at h
  cases hb : bucketLoop img (img.readUlong (kvm_nlist img).lockhash_value).val
      (img.readInt (kvm_nlist img).lockhashsize_value).val.toNat 0 fuel 0 0 with
  | none => rw [hb] at h; simp at h
  | some r =>
    rw [hb] at h
    obtain ⟨t2, l2, hr⟩ := bucketLoop_allreads_ok img _ hUl hLf _ _ _ _ _ _ hb
    subst hr
    simp only [Option.some.injEq] at h
    exact ⟨t2, l2, h.symm⟩

/-- C7 witness: the amended statement applied to imgShort, on which
every read has a nonnegative return code and the bucket-count read is
short. -/
theorem scan_aborts_only_on_negative_rc_witness :
    ∃ t l, successOut 0 0 = successOut t l :=
  scan_aborts_only_on_negative_rc imgShort 0 (successOut 0 0) rfl rfl
    (fun a => by by_cases h2 : a = 2000 <;> simp [imgShort, h2])
    (fun a => by by_cases h2 : a = 1000 <;> simp [imgShort, h2])
    (fun a => by simp [imgShort])
    (by decide)
